import Mathlib

set_option autoImplicit false

namespace Circa

/-!  Shallow embedding of the concept-store backend (`app/routes/concepts.py`
over a MongoDB `concepts` collection).  The embedding vector type is
abstracted as a type parameter `V` (the source stores a list of floats but
never inspects the values), and the Embedding Provider
(`tensor_to_list (calculate_normalized_embeddings s)`, an external
collaborator per the spec) is an abstract function `embed : String → V`.  -/

/-- A persisted concept document of the `concepts` collection.  `oid` is the
MongoDB `_id` ObjectId, abstracted as the natural number encoded by its
24-character hex string. -/
structure Doc (V : Type) where
  oid : Nat
  name : String
  usage : String
  normalized_embedding : Option V
deriving DecidableEq, Repr

/-- The `concepts` collection, in natural (insertion) order. -/
abbrev DB (V : Type) := List (Doc V)

/-- Hexadecimal digit test, for ObjectId well-formedness. -/
def isHexChar (c : Char) : Bool :=
  c.isDigit || (decide ('a' ≤ c) && decide (c ≤ 'f')) ||
    (decide ('A' ≤ c) && decide (c ≤ 'F'))

/-- Numeric value of a hexadecimal digit. -/
def hexVal (c : Char) : Nat :=
  if c.isDigit then c.toNat - 48
  else if 'a' ≤ c then c.toNat - 87
  else c.toNat - 55

/-- Models the bson `ObjectId(id)` constructor applied to a string: it
succeeds exactly when `id` is a 24-character case-insensitive hexadecimal
string, and the resulting ObjectId is abstracted as the encoded number;
otherwise bson raises `errors.InvalidId`. -/
def parseObjectId (s : String) : Option Nat :=
  if s.length == 24 && s.toList.all isHexChar then
    some (s.toList.foldl (fun a c => 16 * a + hexVal c) 0)
  else
    none

/-- An HTTP-level failure: `http` is a raised `HTTPException` with its status
code and detail message; `unhandled` is an exception the handler does not
catch (it escapes to the framework). -/
inductive ApiError where
  | http (status : Nat) (detail : String)
  | unhandled
deriving DecidableEq, Repr

/-- Status-code view of a handler outcome: `none` for success, `some (some s)`
for an `HTTPException` with status `s`, `some none` for an uncaught
exception. -/
def errStatus {α : Type} : Except ApiError α → Option (Option Nat)
  | .ok _ => none
  | .error (.http s _) => some (some s)
  | .error .unhandled => some none

/-- `db.concepts.find_one` with an `_id` filter: the first document whose
`_id` matches, if any. -/
def findOne {V : Type} : DB V → Nat → Option (Doc V)
  | [], _ => none
  | d :: ds, oid => if d.oid = oid then some d else findOne ds oid

/-- The update dictionary built by the PUT handler (`update_data_dict`):
the recognized fields that survive the non-null filter, plus the
`normalized_embedding` entry the handler may add. -/
structure Changeset (V : Type) where
  name : Option String
  usage : Option String
  normalized_embedding : Option V
deriving DecidableEq, Repr

/-- Truthiness of `update_data_dict`: non-empty when any key is present. -/
def Changeset.nonempty {V : Type} (cs : Changeset V) : Bool :=
  cs.name.isSome || cs.usage.isSome || cs.normalized_embedding.isSome

/-- MongoDB `$set` on one document: fields present in the changeset replace
the stored value, absent fields are untouched. -/
def applySet {V : Type} (d : Doc V) (cs : Changeset V) : Doc V :=
  { d with
    name := cs.name.getD d.name
    usage := cs.usage.getD d.usage
    normalized_embedding :=
      match cs.normalized_embedding with
      | some v => some v
      | none => d.normalized_embedding }

/-- `db.concepts.update_one` with an `_id` filter and a `$set` document:
modifies the first matching document only. -/
def updateOne {V : Type} : DB V → Nat → Changeset V → DB V
  | [], _, _ => []
  | d :: ds, oid, cs =>
    if d.oid = oid then applySet d cs :: ds else d :: updateOne ds oid cs

/-- `db.concepts.delete_one` with an `_id` filter: removes the first matching
document and reports `deleted_count` (0 or 1). -/
def deleteOne {V : Type} : DB V → Nat → DB V × Nat
  | [], _ => ([], 0)
  | d :: ds, oid =>
    if d.oid = oid then (ds, 1)
    else
      let r := deleteOne ds oid
      (d :: r.1, r.2)

/-- Modelled from the spec: `ConceptModel` lives in `app/models/models.py`,
which is not part of the given sources.  Per the spec, Create's input is
`{name, usage, normalized_embedding?}` with any client-supplied identifier
ignored, so the schema carries an optional `id` and an optional precomputed
embedding. -/
structure ConceptModel (V : Type) where
  id : Option String
  name : String
  usage : String
  normalized_embedding : Option V
deriving DecidableEq, Repr

/-- Modelled from the spec: `UpdateConceptModel` lives in
`app/models/models.py`, which is not part of the given sources.  Per the spec
the Update partial body is `{name?, usage?}`; the schema exposes no
`normalized_embedding` field to clients. -/
structure UpdateConceptModel where
  name : Option String
  usage : Option String
deriving DecidableEq, Repr

/-- Embeds `find_concept_by_id` (`app/routes/concepts.py`, lines 10-24): the
internal helper used by the PUT handler.  Parses the id (400 on bson
`InvalidId`), looks the document up (404 when absent), else returns it. -/
def find_concept_by_id {V : Type} (db : DB V) (id : String) :
    Except ApiError (Doc V) :=
  match parseObjectId id with
  | none => .error (.http 400 ("Invalid concept ID format: " ++ id))
  | some object_id =>
    match findOne db object_id with
    | none => .error (.http 404 ("Concept not found with id=" ++ id))
    | some concept => .ok concept

/-- Embeds the GET `/concepts/id` handler `get_concept_by_id`
(`app/routes/concepts.py`, lines 78-90).  Its body repeats the helper's
logic with different detail messages. -/
def get_concept_by_id {V : Type} (db : DB V) (id : String) :
    Except ApiError (Doc V) :=
  match parseObjectId id with
  | none => .error (.http 400 ("Invalid user ID format: " ++ id))
  | some object_id =>
    match findOne db object_id with
    | none => .error (.http 404 ("Concept not found id='" ++ id ++ "'"))
    | some concept => .ok concept

/-- Outcome of the POST handler: the value returned to the client (the
freshly fetched document), the collection afterwards, and how many times the
Embedding Provider was invoked. -/
structure CreateEff (V : Type) where
  result : Option (Doc V)
  db : DB V
  embedCalls : Nat
deriving DecidableEq, Repr

/-- Embeds the POST `/concepts` handler `add_concept`
(`app/routes/concepts.py`, lines 36-49): inserts the body's fields with `id`
excluded (MongoDB assigns the `_id`, modelled by the `newOid` parameter),
re-reads the inserted document and returns it.  The handler never calls the
Embedding Provider, which `embedCalls` records. -/
def add_concept {V : Type} (db : DB V) (concept : ConceptModel V)
    (newOid : Nat) : CreateEff V :=
  let inserted : Doc V :=
    ⟨newOid, concept.name, concept.usage, concept.normalized_embedding⟩
  let db' := db ++ [inserted]
  { result := findOne db' newOid, db := db', embedCalls := 0 }

/-- Embeds the GET `/concepts` handler `get_concepts`
(`app/routes/concepts.py`, lines 59-68): `find()` then
`to_list(length=1000)`, i.e. the first 1000 documents. -/
def get_concepts {V : Type} (db : DB V) : List (Doc V) :=
  db.take 1000

/-- Outcome of the PUT handler: the client-visible result (the raised error,
or the returned document — `find_one`'s raw optional result on the write
path), the collection afterwards, and how many Embedding Provider calls and
database writes were made. -/
structure UpdateEff (V : Type) where
  result : Except ApiError (Option (Doc V))
  db : DB V
  embedCalls : Nat
  writes : Nat
deriving Repr

/-- Embeds the PUT `/concepts/id` handler `update_concept`
(`app/routes/concepts.py`, lines 100-134): resolves the record through
`find_concept_by_id`; builds `update_data_dict` from the non-null body
fields; if `name` or `usage` is present, computes the embed string
from changeset-else-stored values and adds `normalized_embedding` to the
dictionary; if the dictionary is non-empty, issues `update_one` with `$set`
and returns the re-read document; otherwise returns the existing record. -/
def update_concept {V : Type} (embed : String → V) (db : DB V) (id : String)
    (update_data : UpdateConceptModel) : UpdateEff V :=
  match find_concept_by_id db id with
  | .error e => { result := .error e, db := db, embedCalls := 0, writes := 0 }
  | .ok concept =>
    let update_data_dict : Changeset V :=
      ⟨update_data.name, update_data.usage, none⟩
    let touched := update_data_dict.name.isSome || update_data_dict.usage.isSome
    let dict :=
      if touched then
        let embed_string :=
          update_data_dict.name.getD concept.name ++ ": " ++
            update_data_dict.usage.getD concept.usage
        { update_data_dict with normalized_embedding := some (embed embed_string) }
      else update_data_dict
    let ecalls := if touched then 1 else 0
    if dict.nonempty then
      let db' := updateOne db concept.oid dict
      { result := .ok (findOne db' concept.oid), db := db',
        embedCalls := ecalls, writes := 1 }
    else
      { result := .ok (some concept), db := db, embedCalls := ecalls, writes := 0 }

/-- Outcome of the DELETE handler: the client-visible result (success is the
200 JSONResponse) and the collection afterwards. -/
structure DeleteEff (V : Type) where
  result : Except ApiError Unit
  db : DB V
deriving Repr

/-- Embeds the DELETE `/concepts/id` handler `delete_concept`
(`app/routes/concepts.py`, lines 142-152): calls `ObjectId(id)` with no
try/except, so a malformed id raises an uncaught bson `InvalidId`; otherwise
issues `delete_one` and answers 200 when `deleted_count == 1`, else raises
404. -/
def delete_concept {V : Type} (db : DB V) (id : String) : DeleteEff V :=
  match parseObjectId id with
  | none => { result := .error .unhandled, db := db }
  | some object_id =>
    let r := deleteOne db object_id
    if r.2 = 1 then { result := .ok (), db := r.1 }
    else
      { result := .error (.http 404 ("Concept with id='" ++ id ++ "' not found.")),
        db := r.1 }

/-- A concrete embedding function used to instantiate the abstract Embedding
Provider in closed statements. -/
def exEmbed : String → Nat := String.length

/-- Number of documents of the collection carrying a given `_id`. -/
def countOid {V : Type} : DB V → Nat → Nat
  | [], _ => 0
  | d :: ds, oid => (if d.oid = oid then 1 else 0) + countOid ds oid

theorem applySet_oid {V : Type} (d : Doc V) (cs : Changeset V) :
    (applySet d cs).oid = d.oid := rfl

theorem applySet_name {V : Type} (d : Doc V) (cs : Changeset V) :
    (applySet d cs).name = cs.name.getD d.name := rfl

theorem applySet_usage {V : Type} (d : Doc V) (cs : Changeset V) :
    (applySet d cs).usage = cs.usage.getD d.usage := rfl

theorem applySet_emb_some {V : Type} (d : Doc V) {cs : Changeset V} {v : V}
    (h : cs.normalized_embedding = some v) :
    (applySet d cs).normalized_embedding = some v := by
  simp [applySet, h]

theorem applySet_emb_none {V : Type} (d : Doc V) {cs : Changeset V}
    (h : cs.normalized_embedding = none) :
    (applySet d cs).normalized_embedding = d.normalized_embedding := by
  simp [applySet, h]

theorem findOne_oid_eq {V : Type} {db : DB V} {oid : Nat} {c : Doc V}
    (h : findOne db oid = some c) : c.oid = oid := by
  induction db with
  | nil => simp [findOne] at h
  | cons d ds ih =>
    by_cases hd : d.oid = oid
    · simp [findOne, hd] at h
      rw [← h]; exact hd
    · simp [findOne, hd] at h
      exact ih h

theorem findOne_updateOne_self {V : Type} {db : DB V} {oid : Nat} {c : Doc V}
    (cs : Changeset V) (h : findOne db oid = some c) :
    findOne (updateOne db oid cs) oid = some (applySet c cs) := by
  induction db with
  | nil => simp [findOne] at h
  | cons d ds ih =>
    by_cases hd : d.oid = oid
    · simp [findOne, hd] at h
      subst h
      simp [updateOne, hd, findOne, applySet_oid]
    · simp [findOne, hd] at h
      simp [updateOne, hd, findOne, ih h]

theorem mem_updateOne_of_ne {V : Type} {db : DB V} {oid : Nat} (cs : Changeset V)
    {d : Doc V} (hm : d ∈ db) (hne : d.oid ≠ oid) : d ∈ updateOne db oid cs := by
  induction db with
  | nil => simp at hm
  | cons a ds ih =>
    rcases List.mem_cons.mp hm with h | h
    · subst h
      simp [updateOne, hne]
    · by_cases ha : a.oid = oid
      · simp [updateOne, ha, h]
      · simp [updateOne, ha, ih h]

theorem findOne_append_last {V : Type} {db : DB V} {oid : Nat} (d : Doc V)
    (h : findOne db oid = none) (hd : d.oid = oid) :
    findOne (db ++ [d]) oid = some d := by
  induction db with
  | nil => simp [findOne, hd]
  | cons a ds ih =>
    by_cases ha : a.oid = oid
    · simp [findOne, ha] at h
    · simp [findOne, ha] at h ⊢
      exact ih h

theorem findOne_none_iff_countOid {V : Type} (db : DB V) (oid : Nat) :
    findOne db oid = none ↔ countOid db oid = 0 := by
  induction db with
  | nil => simp [findOne, countOid]
  | cons d ds ih =>
    by_cases hd : d.oid = oid
    · simp [findOne, countOid, hd]
    · simp [findOne, countOid, hd, ih]

theorem deleteOne_of_findOne_none {V : Type} {db : DB V} {oid : Nat}
    (h : findOne db oid = none) : deleteOne db oid = (db, 0) := by
  induction db with
  | nil => simp [deleteOne]
  | cons d ds ih =>
    by_cases hd : d.oid = oid
    · simp [findOne, hd] at h
    · simp [findOne, hd] at h
      simp [deleteOne, hd, ih h]

theorem deleteOne_of_findOne_some {V : Type} {db : DB V} {oid : Nat} {c : Doc V}
    (h : findOne db oid = some c) :
    (deleteOne db oid).2 = 1 ∧
      countOid (deleteOne db oid).1 oid = countOid db oid - 1 := by
  induction db with
  | nil => simp [findOne] at h
  | cons d ds ih =>
    by_cases hd : d.oid = oid
    · simp [findOne, hd] at h
      simp [deleteOne, hd, countOid]
    · simp [findOne, hd] at h
      obtain ⟨h1, h2⟩ := ih h
      have hpos : 0 < countOid ds oid := by
        by_contra hz
        have : countOid ds oid = 0 := by omega
        rw [← findOne_none_iff_countOid] at this
        rw [this] at h
        exact Option.noConfusion h
      constructor
      · simp [deleteOne, hd, h1]
      · simp [deleteOne, hd, countOid, h2]

theorem find_concept_ok_elim {V : Type} {db : DB V} {id : String} {c : Doc V}
    (h : find_concept_by_id db id = Except.ok c) :
    ∃ oid, parseObjectId id = some oid ∧ findOne db oid = some c := by
  cases hp : parseObjectId id with
  | none => simp [find_concept_by_id, hp] at h
  | some oid =>
    cases hf : findOne db oid with
    | none => simp [find_concept_by_id, hp, hf] at h
    | some c2 =>
      simp [find_concept_by_id, hp, hf] at h
      exact ⟨oid, rfl, by rw [hf, h]⟩

theorem update_concept_err {V : Type} (embed : String → V) {db : DB V}
    {id : String} (upd : UpdateConceptModel) {e : ApiError}
    (h : find_concept_by_id db id = Except.error e) :
    update_concept embed db id upd =
      { result := Except.error e, db := db, embedCalls := 0, writes := 0 } := by
  simp [update_concept, h]

theorem update_concept_touched {V : Type} (embed : String → V) {db : DB V}
    {id : String} {upd : UpdateConceptModel} {concept : Doc V}
    (hf : find_concept_by_id db id = Except.ok concept)
    (ht : (upd.name.isSome || upd.usage.isSome) = true) :
    update_concept embed db id upd =
      { result := Except.ok (findOne
          (updateOne db concept.oid
            ⟨upd.name, upd.usage,
              some (embed (upd.name.getD concept.name ++ ": " ++
                upd.usage.getD concept.usage))⟩)
          concept.oid),
        db := updateOne db concept.oid
          ⟨upd.name, upd.usage,
            some (embed (upd.name.getD concept.name ++ ": " ++
              upd.usage.getD concept.usage))⟩,
        embedCalls := 1, writes := 1 } := by
  simp [update_concept, hf, ht, Changeset.nonempty]

theorem update_concept_untouched {V : Type} (embed : String → V) {db : DB V}
    {id : String} {upd : UpdateConceptModel} {concept : Doc V}
    (hf : find_concept_by_id db id = Except.ok concept)
    (hn : upd.name = none) (hu : upd.usage = none) :
    update_concept embed db id upd =
      { result := Except.ok (some concept), db := db,
        embedCalls := 0, writes := 0 } := by
  simp [update_concept, hf, hn, hu, Changeset.nonempty]

/-- C1: after a successful Update whose changeset contains `name` and/or
`usage`, the returned record — also the one stored under the concept's id —
has `normalized_embedding = Embed("effective_name: effective_usage")`, where
the effective values are the changeset value when present and the previously
stored value otherwise. -/
theorem c1_update_embedding_consistency {V : Type} (embed : String → V)
    (db : DB V) (id : String) (upd : UpdateConceptModel) (concept : Doc V)
    (hf : find_concept_by_id db id = Except.ok concept)
    (ht : (upd.name.isSome || upd.usage.isSome) = true) :
    ∃ u : Doc V,
      (update_concept embed db id upd).result = Except.ok (some u) ∧
      findOne (update_concept embed db id upd).db concept.oid = some u ∧
      u.normalized_embedding =
        some (embed (upd.name.getD concept.name ++ ": " ++
          upd.usage.getD concept.usage)) := by
  obtain ⟨oid, hp, hfo⟩ := find_concept_ok_elim hf
  have hoid : concept.oid = oid := findOne_oid_eq hfo
  have hfo' : findOne db concept.oid = some concept := by rw [hoid]; exact hfo
  have hup := findOne_updateOne_self
    (⟨upd.name, upd.usage,
      some (embed (upd.name.getD concept.name ++ ": " ++
        upd.usage.getD concept.usage))⟩ : Changeset V) hfo'
  refine ⟨applySet concept ⟨upd.name, upd.usage,
    some (embed (upd.name.getD concept.name ++ ": " ++
      upd.usage.getD concept.usage))⟩, ?_, ?_, ?_⟩
  · rw [update_concept_touched embed hf ht, hup]
  · rw [update_concept_touched embed hf ht]
    exact hup
  · exact applySet_emb_some concept rfl

/-- C1 witness: updating usage of a stored concept recomputes the embedding
from the kept name and the new usage. -/
theorem c1_witness :
    ∃ u : Doc Nat,
      (update_concept exEmbed [⟨5, "Foo", "bar", none⟩]
        "000000000000000000000005" ⟨none, some "baz"⟩).result =
        Except.ok (some u) ∧
      findOne (update_concept exEmbed [⟨5, "Foo", "bar", none⟩]
        "000000000000000000000005" ⟨none, some "baz"⟩).db 5 = some u ∧
      u.normalized_embedding = some (exEmbed "Foo: baz") :=
  c1_update_embedding_consistency exEmbed [⟨5, "Foo", "bar", none⟩]
    "000000000000000000000005" ⟨none, some "baz"⟩ ⟨5, "Foo", "bar", none⟩
    (by rfl) (by rfl)

/-- C2 counterexample: Create touches `name` and `usage` but computes no
embedding: creating `{name := "a", usage := "b"}` without a supplied
embedding stores a record whose `normalized_embedding` is absent, not
`Embed("a: b")`, so the invariant does not hold after every successful write
that touched those fields. -/
theorem c2_counterexample :
    (add_concept ([] : DB Nat) ⟨none, "a", "b", none⟩ 5).db =
      [⟨5, "a", "b", none⟩] ∧
    (add_concept ([] : DB Nat) ⟨none, "a", "b", none⟩ 5).result =
      some ⟨5, "a", "b", none⟩ ∧
    (⟨5, "a", "b", none⟩ : Doc Nat).normalized_embedding ≠
      some (exEmbed ("a" ++ ": " ++ "b")) := by
  refine ⟨rfl, rfl, ?_⟩
  simp

/-- C2 (amended): after a successful Update that touched `name` or `usage`,
the returned and stored record satisfies
`normalized_embedding = Embed(name ++ ": " ++ usage)` of its own final
`name` and `usage`, and the Update schema exposes no embedding field to
clients; Create, by contrast, performs no embedding computation and persists
the caller-supplied `normalized_embedding` (or its absence) verbatim. -/
theorem c2_amended {V : Type} (embed : String → V) (db : DB V) (id : String)
    (upd : UpdateConceptModel) (concept : Doc V)
    (hf : find_concept_by_id db id = Except.ok concept)
    (ht : (upd.name.isSome || upd.usage.isSome) = true) :
    (∃ u : Doc V,
      (update_concept embed db id upd).result = Except.ok (some u) ∧
      findOne (update_concept embed db id upd).db concept.oid = some u ∧
      u.normalized_embedding = some (embed (u.name ++ ": " ++ u.usage))) ∧
    ∀ (db2 : DB V) (c : ConceptModel V) (newOid : Nat),
      (add_concept db2 c newOid).embedCalls = 0 ∧
      (add_concept db2 c newOid).db =
        db2 ++ [⟨newOid, c.name, c.usage, c.normalized_embedding⟩] := by
  constructor
  · obtain ⟨oid, hp, hfo⟩ := find_concept_ok_elim hf
    have hoid : concept.oid = oid := findOne_oid_eq hfo
    have hfo' : findOne db concept.oid = some concept := by rw [hoid]; exact hfo
    have hup := findOne_updateOne_self
      (⟨upd.name, upd.usage,
        some (embed (upd.name.getD concept.name ++ ": " ++
          upd.usage.getD concept.usage))⟩ : Changeset V) hfo'
    refine ⟨applySet concept ⟨upd.name, upd.usage,
      some (embed (upd.name.getD concept.name ++ ": " ++
        upd.usage.getD concept.usage))⟩, ?_, ?_, ?_⟩
    · rw [update_concept_touched embed hf ht, hup]
    · rw [update_concept_touched embed hf ht]
      exact hup
    · exact applySet_emb_some concept rfl
  · intro db2 c newOid
    exact ⟨rfl, rfl⟩

/-- C2 (amended) witness: a concrete update recomputes the embedding of the
final name/usage pair, and a concrete create stores the caller's value with
no embedding call. -/
theorem c2_amended_witness :
    (∃ u : Doc Nat,
      (update_concept exEmbed [⟨5, "Foo", "bar", none⟩]
        "000000000000000000000005" ⟨none, some "baz"⟩).result =
        Except.ok (some u) ∧
      findOne (update_concept exEmbed [⟨5, "Foo", "bar", none⟩]
        "000000000000000000000005" ⟨none, some "baz"⟩).db 5 = some u ∧
      u.normalized_embedding = some (exEmbed (u.name ++ ": " ++ u.usage))) ∧
    ∀ (db2 : DB Nat) (c : ConceptModel Nat) (newOid : Nat),
      (add_concept db2 c newOid).embedCalls = 0 ∧
      (add_concept db2 c newOid).db =
        db2 ++ [⟨newOid, c.name, c.usage, c.normalized_embedding⟩] :=
  c2_amended exEmbed [⟨5, "Foo", "bar", none⟩] "000000000000000000000005"
    ⟨none, some "baz"⟩ ⟨5, "Foo", "bar", none⟩ (by rfl) (by rfl)

/-- C3: after an Update with a non-empty changeset, fields not in the
changeset keep their prior stored value: the identifier is unchanged, an
absent `name`/`usage` stays at the stored value, a present one is applied,
and every other stored document with a different id is still present. -/
theorem c3_untouched_fields_preserved {V : Type} (embed : String → V)
    (db : DB V) (id : String) (upd : UpdateConceptModel) (concept : Doc V)
    (hf : find_concept_by_id db id = Except.ok concept)
    (ht : (upd.name.isSome || upd.usage.isSome) = true) :
    ∃ u : Doc V,
      (update_concept embed db id upd).result = Except.ok (some u) ∧
      u.oid = concept.oid ∧
      (upd.name = none → u.name = concept.name) ∧
      (upd.usage = none → u.usage = concept.usage) ∧
      (∀ x, upd.name = some x → u.name = x) ∧
      (∀ x, upd.usage = some x → u.usage = x) ∧
      ∀ d : Doc V, d ∈ db → d.oid ≠ concept.oid →
        d ∈ (update_concept embed db id upd).db := by
  obtain ⟨oid, hp, hfo⟩ := find_concept_ok_elim hf
  have hoid : concept.oid = oid := findOne_oid_eq hfo
  have hfo' : findOne db concept.oid = some concept := by rw [hoid]; exact hfo
  have hup := findOne_updateOne_self
    (⟨upd.name, upd.usage,
      some (embed (upd.name.getD concept.name ++ ": " ++
        upd.usage.getD concept.usage))⟩ : Changeset V) hfo'
  refine ⟨applySet concept ⟨upd.name, upd.usage,
    some (embed (upd.name.getD concept.name ++ ": " ++
      upd.usage.getD concept.usage))⟩, ?_, rfl, ?_, ?_, ?_, ?_, ?_⟩
  · rw [update_concept_touched embed hf ht, hup]
  · intro h; simp [applySet_name, h]
  · intro h; simp [applySet_usage, h]
  · intro x h; simp [applySet_name, h]
  · intro x h; simp [applySet_usage, h]
  · intro d hm hne
    rw [update_concept_touched embed hf ht]
    exact mem_updateOne_of_ne _ hm hne

/-- C3 witness: updating only the name keeps usage, identifier, and the
other stored document. -/
theorem c3_witness :
    ∃ u : Doc Nat,
      (update_concept exEmbed [⟨5, "Foo", "bar", none⟩, ⟨6, "Goo", "gar", none⟩]
        "000000000000000000000005" ⟨some "X", none⟩).result =
        Except.ok (some u) ∧
      u.oid = 5 ∧
      ((some "X" : Option String) = none → u.name = "Foo") ∧
      ((none : Option String) = none → u.usage = "bar") ∧
      (∀ x, (some "X" : Option String) = some x → u.name = x) ∧
      (∀ x, (none : Option String) = some x → u.usage = x) ∧
      ∀ d : Doc Nat,
        d ∈ ([⟨5, "Foo", "bar", none⟩, ⟨6, "Goo", "gar", none⟩] : DB Nat) →
        d.oid ≠ 5 →
        d ∈ (update_concept exEmbed
          [⟨5, "Foo", "bar", none⟩, ⟨6, "Goo", "gar", none⟩]
          "000000000000000000000005" ⟨some "X", none⟩).db :=
  c3_untouched_fields_preserved exEmbed
    [⟨5, "Foo", "bar", none⟩, ⟨6, "Goo", "gar", none⟩]
    "000000000000000000000005" ⟨some "X", none⟩ ⟨5, "Foo", "bar", none⟩
    (by rfl) (by rfl)

/-- C4: an Update whose partial body has all fields null produces an empty
changeset: no database write, no embedding computation, and the existing
record is returned with the collection unchanged. -/
theorem c4_noop_update {V : Type} (embed : String → V) (db : DB V)
    (id : String) (upd : UpdateConceptModel) (concept : Doc V)
    (hf : find_concept_by_id db id = Except.ok concept)
    (hn : upd.name = none) (hu : upd.usage = none) :
    update_concept embed db id upd =
      { result := Except.ok (some concept), db := db,
        embedCalls := 0, writes := 0 } :=
  update_concept_untouched embed hf hn hu

/-- C4 witness: an all-null body leaves a concrete store untouched. -/
theorem c4_witness :
    update_concept exEmbed [⟨5, "Foo", "bar", none⟩]
      "000000000000000000000005" ⟨none, none⟩ =
      { result := Except.ok (some ⟨5, "Foo", "bar", none⟩),
        db := [⟨5, "Foo", "bar", none⟩], embedCalls := 0, writes := 0 } :=
  c4_noop_update exEmbed [⟨5, "Foo", "bar", none⟩]
    "000000000000000000000005" ⟨none, none⟩ ⟨5, "Foo", "bar", none⟩
    (by rfl) rfl rfl

theorem update_errStatus_eq_find {V : Type} (embed : String → V) (db : DB V)
    (id : String) (upd : UpdateConceptModel) :
    errStatus (update_concept embed db id upd).result =
      errStatus (find_concept_by_id db id) := by
  cases hr : find_concept_by_id db id with
  | error e =>
    rw [update_concept_err embed upd hr]
    cases e with
    | http s d => rfl
    | unhandled => rfl
  | ok concept =>
    cases hn : upd.name with
    | some n =>
      rw [update_concept_touched embed hr (by simp [hn])]
      rfl
    | none =>
      cases hu : upd.usage with
      | some u2 =>
        rw [update_concept_touched embed hr (by simp [hn, hu])]
        rfl
      | none =>
        rw [update_concept_untouched embed hr hn hu]
        rfl

theorem errStatus_find_eq_get {V : Type} (db : DB V) (id : String) :
    errStatus (find_concept_by_id db id) =
      errStatus (get_concept_by_id db id) := by
  cases hp : parseObjectId id with
  | none => simp [find_concept_by_id, get_concept_by_id, hp, errStatus]
  | some oid =>
    cases hfo : findOne db oid with
    | none => simp [find_concept_by_id, get_concept_by_id, hp, hfo, errStatus]
    | some c2 => simp [find_concept_by_id, get_concept_by_id, hp, hfo, errStatus]

/-- C5: the GET-by-id handler fails with 400 exactly when the id is not a
well-formed ObjectId, fails with 404 exactly when the id parses but no
document carries it, returns the matching document otherwise, and the PUT
handler's resolution step shares exactly these failure modes. -/
theorem c5_findbyid_update_failure_modes {V : Type} (embed : String → V)
    (db : DB V) (id : String) (upd : UpdateConceptModel) :
    (errStatus (get_concept_by_id db id) = some (some 400) ↔
      parseObjectId id = none) ∧
    (errStatus (get_concept_by_id db id) = some (some 404) ↔
      ∃ oid, parseObjectId id = some oid ∧ findOne db oid = none) ∧
    (∀ oid c, parseObjectId id = some oid → findOne db oid = some c →
      get_concept_by_id db id = Except.ok c) ∧
    errStatus (update_concept embed db id upd).result =
      errStatus (get_concept_by_id db id) := by
  refine ⟨?_, ?_, ?_, ?_⟩
  · cases hp : parseObjectId id with
    | none => simp [get_concept_by_id, hp, errStatus]
    | some oid =>
      cases hfo : findOne db oid with
      | none => simp [get_concept_by_id, hp, hfo, errStatus]
      | some c2 => simp [get_concept_by_id, hp, hfo, errStatus]
  · cases hp : parseObjectId id with
    | none => simp [get_concept_by_id, hp, errStatus]
    | some oid =>
      cases hfo : findOne db oid with
      | none => simp [get_concept_by_id, hp, hfo, errStatus]
      | some c2 => simp [get_concept_by_id, hp, hfo, errStatus]
  · intro oid c hp hfo
    simp [get_concept_by_id, hp, hfo]
  · rw [update_errStatus_eq_find, errStatus_find_eq_get]

/-- C5 witness: on a one-document store, a malformed id yields 400, an
unknown well-formed id yields 404, the stored id is returned, and an Update
resolving the same id reports the same status. -/
theorem c5_witness :
    (errStatus (get_concept_by_id ([⟨5, "Foo", "bar", none⟩] : DB Nat) "zz") =
      some (some 400) ↔ parseObjectId "zz" = none) ∧
    (errStatus (get_concept_by_id ([⟨5, "Foo", "bar", none⟩] : DB Nat) "zz") =
      some (some 404) ↔
      ∃ oid, parseObjectId "zz" = some oid ∧
        findOne ([⟨5, "Foo", "bar", none⟩] : DB Nat) oid = none) ∧
    (∀ oid c, parseObjectId "zz" = some oid →
      findOne ([⟨5, "Foo", "bar", none⟩] : DB Nat) oid = some c →
      get_concept_by_id ([⟨5, "Foo", "bar", none⟩] : DB Nat) "zz" =
        Except.ok c) ∧
    errStatus (update_concept exEmbed [⟨5, "Foo", "bar", none⟩] "zz"
      ⟨some "X", none⟩).result =
      errStatus (get_concept_by_id ([⟨5, "Foo", "bar", none⟩] : DB Nat) "zz") :=
  c5_findbyid_update_failure_modes exEmbed [⟨5, "Foo", "bar", none⟩] "zz"
    ⟨some "X", none⟩

/-- C6 counterexample: Delete with the malformed id `"zz"` raises an uncaught
bson `InvalidId` (the handler parses with no try/except), rather than
matching zero records and reporting 404 as the claim states. -/
theorem c6_counterexample :
    (delete_concept ([⟨5, "Foo", "bar", none⟩] : DB Nat) "zz").result =
      Except.error ApiError.unhandled ∧
    errStatus (delete_concept ([⟨5, "Foo", "bar", none⟩] : DB Nat)
      "zz").result ≠ some (some 404) := by
  exact ⟨rfl, by decide⟩

/-- C6 (amended): for a well-formed id carried by exactly one document,
Delete removes that document and succeeds; deleting the same id again
returns 404 and changes nothing; a malformed id, however, raises an uncaught
identifier-parse error (leaving the store unchanged) instead of reporting
404. -/
theorem c6_amended {V : Type} (db : DB V) (id : String) (oid : Nat)
    (hp : parseObjectId id = some oid) (hc : countOid db oid = 1) :
    (delete_concept db id).result = Except.ok () ∧
    countOid (delete_concept db id).db oid = 0 ∧
    errStatus (delete_concept (delete_concept db id).db id).result =
      some (some 404) ∧
    (delete_concept (delete_concept db id).db id).db =
      (delete_concept db id).db ∧
    ∀ (db2 : DB V) (id2 : String), parseObjectId id2 = none →
      (delete_concept db2 id2).result = Except.error ApiError.unhandled ∧
      (delete_concept db2 id2).db = db2 := by
  have hex : ∃ c, findOne db oid = some c := by
    cases hfo : findOne db oid with
    | none =>
      rw [findOne_none_iff_countOid] at hfo
      omega
    | some c => exact ⟨c, rfl⟩
  obtain ⟨c, hfo⟩ := hex
  obtain ⟨hd1, hd2⟩ := deleteOne_of_findOne_some hfo
  have h1 : delete_concept db id =
      { result := Except.ok (), db := (deleteOne db oid).1 } := by
    simp [delete_concept, hp, hd1]
  have hcount0 : countOid (deleteOne db oid).1 oid = 0 := by
    rw [hd2, hc]
  have hfo2 : findOne (deleteOne db oid).1 oid = none :=
    (findOne_none_iff_countOid _ _).mpr hcount0
  have hdel2 : deleteOne (deleteOne db oid).1 oid = ((deleteOne db oid).1, 0) :=
    deleteOne_of_findOne_none hfo2
  have h2 : delete_concept (deleteOne db oid).1 id =
      { result := Except.error
          (ApiError.http 404 ("Concept with id='" ++ id ++ "' not found.")),
        db := (deleteOne db oid).1 } := by
    simp [delete_concept, hp, hdel2]
  refine ⟨?_, ?_, ?_, ?_, ?_⟩
  · rw [h1]
  · rw [h1]
    exact hcount0
  · rw [h1]
    show errStatus (delete_concept (deleteOne db oid).1 id).result =
      some (some 404)
    rw [h2]
    rfl
  · rw [h1]
    show (delete_concept (deleteOne db oid).1 id).db = (deleteOne db oid).1
    rw [h2]
  · intro db2 id2 hp2
    constructor
    · simp [delete_concept, hp2]
    · simp [delete_concept, hp2]

/-- C6 (amended) witness: deleting the only document by its hex id succeeds,
a second delete of the same id yields 404, and the malformed clause holds. -/
theorem c6_witness :
    (delete_concept ([⟨5, "Foo", "bar", none⟩] : DB Nat)
      "000000000000000000000005").result = Except.ok () ∧
    countOid (delete_concept ([⟨5, "Foo", "bar", none⟩] : DB Nat)
      "000000000000000000000005").db 5 = 0 ∧
    errStatus (delete_concept
      (delete_concept ([⟨5, "Foo", "bar", none⟩] : DB Nat)
        "000000000000000000000005").db
      "000000000000000000000005").result = some (some 404) ∧
    (delete_concept
      (delete_concept ([⟨5, "Foo", "bar", none⟩] : DB Nat)
        "000000000000000000000005").db
      "000000000000000000000005").db =
      (delete_concept ([⟨5, "Foo", "bar", none⟩] : DB Nat)
        "000000000000000000000005").db ∧
    ∀ (db2 : DB Nat) (id2 : String), parseObjectId id2 = none →
      (delete_concept db2 id2).result = Except.error ApiError.unhandled ∧
      (delete_concept db2 id2).db = db2 :=
  c6_amended [⟨5, "Foo", "bar", none⟩] "000000000000000000000005" 5
    (by rfl) (by rfl)

/-- C7: ListAll returns the stored documents in order, capped at 1000 — its
length is the minimum of the collection size and 1000, and with 1500 stored
records exactly 1000 come back. -/
theorem c7_list_cap {V : Type} (db : DB V) :
    get_concepts db = db.take 1000 ∧
    (get_concepts db).length = min db.length 1000 ∧
    (db.length = 1500 → (get_concepts db).length = 1000) := by
  refine ⟨rfl, ?_, ?_⟩
  · rw [get_concepts, List.length_take, Nat.min_comm]
  · intro h
    rw [get_concepts, List.length_take, h]
    omega

/-- C7 witness: 1500 seeded records list as exactly 1000. -/
theorem c7_witness :
    (get_concepts (List.replicate 1500 (⟨0, "", "", none⟩ : Doc Nat))).length =
      1000 :=
  (c7_list_cap (List.replicate 1500 ⟨0, "", "", none⟩)).2.2
    (by rw [List.length_replicate])

/-- C8: Create persists exactly the supplied `name`, `usage` and optional
`normalized_embedding` under a store-assigned id, performs no embedding
computation, and a client-supplied identifier is ignored — any `id` value in
the body produces the same outcome. -/
theorem c8_create_exact_fields {V : Type} (db : DB V) (c : ConceptModel V)
    (newOid : Nat) (hfresh : findOne db newOid = none) :
    (add_concept db c newOid).result =
      some ⟨newOid, c.name, c.usage, c.normalized_embedding⟩ ∧
    (add_concept db c newOid).db =
      db ++ [⟨newOid, c.name, c.usage, c.normalized_embedding⟩] ∧
    (add_concept db c newOid).embedCalls = 0 ∧
    ∀ cid : Option String,
      add_concept db { c with id := cid } newOid = add_concept db c newOid := by
  refine ⟨?_, rfl, rfl, fun cid => rfl⟩
  show findOne (db ++ [⟨newOid, c.name, c.usage, c.normalized_embedding⟩])
    newOid = _
  exact findOne_append_last _ hfresh rfl

/-- C8 witness: creating a concept with a client-supplied id and a supplied
embedding stores exactly those fields under the fresh store-assigned id. -/
theorem c8_witness :
    (add_concept ([] : DB Nat) ⟨some "client-id", "A", "B", some 9⟩ 7).result =
      some ⟨7, "A", "B", some 9⟩ ∧
    (add_concept ([] : DB Nat) ⟨some "client-id", "A", "B", some 9⟩ 7).db =
      [] ++ [⟨7, "A", "B", some 9⟩] ∧
    (add_concept ([] : DB Nat)
      ⟨some "client-id", "A", "B", some 9⟩ 7).embedCalls = 0 ∧
    ∀ cid : Option String,
      add_concept ([] : DB Nat)
        { (⟨some "client-id", "A", "B", some 9⟩ : ConceptModel Nat) with
          id := cid } 7 =
      add_concept ([] : DB Nat) ⟨some "client-id", "A", "B", some 9⟩ 7 :=
  c8_create_exact_fields [] ⟨some "client-id", "A", "B", some 9⟩ 7 (by rfl)

/-- C9: the GET-by-id handler and the internal helper used by the PUT
handler resolve any id over any store identically — same failure status
(400 on malformed, 404 on absent) and the same returned document on
success. -/
theorem c9_route_helper_equivalence {V : Type} (db : DB V) (id : String) :
    errStatus (find_concept_by_id db id) =
      errStatus (get_concept_by_id db id) ∧
    ∀ c : Doc V,
      (find_concept_by_id db id = Except.ok c ↔
        get_concept_by_id db id = Except.ok c) := by
  refine ⟨errStatus_find_eq_get db id, ?_⟩
  intro c
  cases hp : parseObjectId id with
  | none =>
    constructor <;> intro h
    · rw [find_concept_by_id, hp] at h
      exact Except.noConfusion h
    · rw [get_concept_by_id, hp] at h
      exact Except.noConfusion h
  | some oid =>
    cases hfo : findOne db oid with
    | none =>
      constructor <;> intro h
      · simp [find_concept_by_id, hp, hfo] at h
      · simp [get_concept_by_id, hp, hfo] at h
    | some c2 =>
      simp [find_concept_by_id, get_concept_by_id, hp, hfo]

/-- C10: when the PUT handler fails, the failure is exactly the resolution
failure, raised before any embedding computation or database write: the
collection is unchanged and the Embedding Provider was never invoked. -/
theorem c10_update_failure_no_side_effects {V : Type} (embed : String → V)
    (db : DB V) (id : String) (upd : UpdateConceptModel) (e : ApiError)
    (h : (update_concept embed db id upd).result = Except.error e) :
    (update_concept embed db id upd).db = db ∧
    (update_concept embed db id upd).embedCalls = 0 ∧
    (update_concept embed db id upd).writes = 0 ∧
    find_concept_by_id db id = Except.error e := by
  cases hr : find_concept_by_id db id with
  | error e2 =>
    rw [update_concept_err embed upd hr] at h
    have he : e2 = e := Except.error.inj h
    subst he
    rw [update_concept_err embed upd hr]
    exact ⟨rfl, rfl, rfl, rfl⟩
  | ok concept =>
    exfalso
    cases hn : upd.name with
    | some n =>
      rw [update_concept_touched embed hr (by simp [hn])] at h
      exact Except.noConfusion h
    | none =>
      cases hu : upd.usage with
      | some u2 =>
        rw [update_concept_touched embed hr (by simp [hn, hu])] at h
        exact Except.noConfusion h
      | none =>
        rw [update_concept_untouched embed hr hn hu] at h
        exact Except.noConfusion h

/-- C10 witness: an update addressed with a malformed id changes nothing and
makes no embedding call. -/
theorem c10_witness :
    (update_concept exEmbed ([] : DB Nat) "zz" ⟨some "X", none⟩).db = [] ∧
    (update_concept exEmbed ([] : DB Nat) "zz"
      ⟨some "X", none⟩).embedCalls = 0 ∧
    (update_concept exEmbed ([] : DB Nat) "zz" ⟨some "X", none⟩).writes = 0 ∧
    find_concept_by_id ([] : DB Nat) "zz" =
      Except.error (ApiError.http 400 "Invalid concept ID format: zz") :=
  c10_update_failure_no_side_effects exEmbed [] "zz" ⟨some "X", none⟩
    (ApiError.http 400 "Invalid concept ID format: zz") (by rfl)

end Circa
